import Mathlib

/-!
Verification of the single-host monitoring pipeline: the metrics collector
(`resource_monitor.py`), the kernel-log event scanner
(`kernel_event_analyzer.py`) and the diagnostic report synthesizer
(`report_generator.py`).

Numbers that Python holds as floats are modelled as rationals (`ℚ`); Python
exceptions are modelled as `Option`/`Except` results; external reads
(psutil counters, process enumeration, log files, `datetime.now()`) are
passed in as explicit arguments.
-/

/-! ## Python-level helpers -/

/-- Characters stripped by Python's `str.strip()` / matched by the regex
class `\s` (ASCII range). -/
def isPySpace (c : Char) : Bool :=
  c = ' ' || c = '\t' || c = '\n' || c = '\r' || c = '\x0b' || c = '\x0c'

/-- `str.strip()` on a list of characters. -/
def pyStripChars (s : List Char) : List Char :=
  ((s.dropWhile isPySpace).reverse.dropWhile isPySpace).reverse

/-- Python `line.strip()`. -/
def pyStrip (s : String) : String :=
  (pyStripChars s.data).asString

/-- Python `max(list)`: raises `ValueError` (here `none`) on an empty list. -/
def pyMax : List ℚ → Option ℚ
  | [] => none
  | x :: xs => some (xs.foldl max x)

/-- Python `min(list)`: raises `ValueError` (here `none`) on an empty list. -/
def pyMin : List ℚ → Option ℚ
  | [] => none
  | x :: xs => some (xs.foldl min x)

/-- Python `a / n` for `n` a collection length: `ZeroDivisionError`
(here `none`) when `n = 0`. -/
def pyDivNat (a : ℚ) (n : ℕ) : Option ℚ :=
  if n = 0 then none else some (a / (n : ℚ))

/-- Python `round(x, 2)` (the claims never inspect rounded fields, so the
tie-breaking convention of binary floats is immaterial here). -/
def round2 (q : ℚ) : ℚ := (round (q * 100) : ℤ) / 100

/-- Truthiness of an `Optional[int]` pid in Python: `None` and `0` are falsy. -/
def pyTruthy : Option Int → Bool
  | none => false
  | some n => n != 0

/-- Python `int(...)` on a run of decimal digits. -/
def digitsToNat (ds : List Char) : ℕ :=
  ds.foldl (fun a c => 10 * a + (c.toNat - 48)) 0

/-! ## A model of the `re.search` calls made by the scanner

The patterns used by the source are literal strings optionally joined by
`.*`, plus five fixed extraction shapes; `re.search` over that fragment is
leftmost match of the segments in order.  (Python's `.` does not match a
newline, but scanner lines come from `splitlines`-style sources and carry
none.)  Matching is case-insensitive exactly where the source passes
`re.IGNORECASE`. -/

/-- Case-insensitive "pattern is a prefix at this position". -/
def matchAtCI : List Char → List Char → Bool
  | [], _ => true
  | _ :: _, [] => false
  | p :: ps, c :: cs => p.toLower = c.toLower && matchAtCI ps cs

/-- Leftmost case-insensitive occurrence of `pat`; returns the suffix just
after the matched occurrence. -/
def searchCI (pat : List Char) : List Char → Option (List Char)
  | [] => if pat.isEmpty then some [] else none
  | c :: cs =>
    if matchAtCI pat (c :: cs) then some ((c :: cs).drop pat.length)
    else searchCI pat cs

/-- Segments (the pieces between `.*`) occur in order. -/
def segsMatch : List (List Char) → List Char → Bool
  | [], _ => true
  | seg :: rest, s =>
    match searchCI seg s with
    | some s' => segsMatch rest s'
    | none => false

/-- Split a pattern at each (non-overlapping, leftmost) occurrence of the
two-character sequence `.*`, as `pattern.split('.*')` would. -/
def splitSegs : List Char → List (List Char)
  | [] => [[]]
  | '.' :: '*' :: rest => [] :: splitSegs rest
  | c :: rest =>
    match splitSegs rest with
    | s :: ss => (c :: s) :: ss
    | [] => [[c]]

/-- `re.search(pattern, line, re.IGNORECASE) is not None` for the literal /
`.*` fragment used by the scanner's pattern tables. -/
def regexSearch (pattern line : String) : Bool :=
  segsMatch (splitSegs pattern.data) line.data

/-- Leftmost position at which a shape matcher succeeds. -/
def scanFirst {α : Type} (f : List Char → Option α) : List Char → Option α
  | [] => f []
  | c :: cs =>
    match f (c :: cs) with
    | some a => some a
    | none => scanFirst f cs

/-- Drop the characters matched by a greedy `\s*`. -/
def dropSpaces (s : List Char) : List Char := s.dropWhile isPySpace

/-- The shape `\d{4}-\d{2}-\d{2}[\sT]\d{2}:\d{2}:\d{2}` anchored at the head
of `s` (this regex is compiled without `re.IGNORECASE`, hence the literal
capital `T`). -/
def tsAt (s : List Char) : Option (List Char) :=
  let t := s.take 19
  match t with
  | [a, b, c, d, h1, e, f, h2, g, h, sep, i, j, c1, k, l, c2, m, n] =>
    if a.isDigit && b.isDigit && c.isDigit && d.isDigit && h1 = '-' &&
       e.isDigit && f.isDigit && h2 = '-' && g.isDigit && h.isDigit &&
       (isPySpace sep || sep = 'T') && i.isDigit && j.isDigit && c1 = ':' &&
       k.isDigit && l.isDigit && c2 = ':' && m.isDigit && n.isDigit
    then some t else none
  | _ => none

/-- `re.search(r'(\d{4}-\d{2}-\d{2}[\sT]\d{2}:\d{2}:\d{2})', line)`,
returning the matched text. -/
def extractTimestamp (line : String) : Option String :=
  (scanFirst tsAt line.data).map List.asString

/-- The shape `pid\s*[=:]?\s*(\d+)` (IGNORECASE) anchored at the head of `s`,
returning the captured digits. -/
def pidAt (s : List Char) : Option (List Char) :=
  if matchAtCI ['p', 'i', 'd'] s then
    let r := dropSpaces (s.drop 3)
    let r := match r with
      | c :: cs => if c = '=' || c = ':' then cs else r
      | [] => r
    let ds := (dropSpaces r).takeWhile Char.isDigit
    if ds.isEmpty then none else some ds
  else none

/-- `re.search(r'pid\s*[=:]?\s*(\d+)', line, re.IGNORECASE)`, as the captured
pid value. -/
def extractPid (line : String) : Option ℕ :=
  (scanFirst pidAt line.data).map digitsToNat

/-- The shape `process\s+([^\s,]+)` (IGNORECASE) anchored at the head of `s`,
returning the captured token. -/
def processAt (s : List Char) : Option (List Char) :=
  if matchAtCI ['p', 'r', 'o', 'c', 'e', 's', 's'] s then
    let r := s.drop 7
    let sp := r.takeWhile isPySpace
    if sp.isEmpty then none
    else
      let tok := (r.drop sp.length).takeWhile fun c => !isPySpace c && c ≠ ','
      if tok.isEmpty then none else some tok
  else none

/-- `re.search(r'process\s+([^\s,]+)', line, re.IGNORECASE)`, as the captured
process name. -/
def extractProcessName (line : String) : Option String :=
  (scanFirst processAt line.data).map List.asString

/-- The shape `oom[_-]?score[=:]?\s*(\d+)` (IGNORECASE) anchored at the head
of `s`, returning the captured digits. -/
def oomScoreAt (s : List Char) : Option (List Char) :=
  if matchAtCI ['o', 'o', 'm'] s then
    let r := s.drop 3
    let r := match r with
      | c :: cs => if c = '_' || c = '-' then cs else r
      | [] => r
    if matchAtCI ['s', 'c', 'o', 'r', 'e'] r then
      let r2 := r.drop 5
      let r2 := match r2 with
        | c :: cs => if c = '=' || c = ':' then cs else r2
        | [] => r2
      let ds := (dropSpaces r2).takeWhile Char.isDigit
      if ds.isEmpty then none else some ds
    else none
  else none

/-- `re.search(r'oom[_-]?score[=:]?\s*(\d+)', line, re.IGNORECASE)`. -/
def extractOomScore (line : String) : Option ℕ :=
  (scanFirst oomScoreAt line.data).map digitsToNat

/-- The shape `(\d+)\s*(kB|MB|GB|bytes)` (IGNORECASE) anchored at the head of
`s`, returning the whole matched text (`group(0)`, unit not normalized). -/
def memInfoAt (s : List Char) : Option (List Char) :=
  let ds := s.takeWhile Char.isDigit
  if ds.isEmpty then none
  else
    let r := s.drop ds.length
    let sp := r.takeWhile isPySpace
    let r2 := r.drop sp.length
    let unitLen : Option ℕ :=
      if matchAtCI ['k', 'B'] r2 then some 2
      else if matchAtCI ['M', 'B'] r2 then some 2
      else if matchAtCI ['G', 'B'] r2 then some 2
      else if matchAtCI ['b', 'y', 't', 'e', 's'] r2 then some 5
      else none
    unitLen.map fun n => ds ++ sp ++ r2.take n

/-- `re.search(r'(\d+)\s*(kB|MB|GB|bytes)', line, re.IGNORECASE)`, as the raw
matched text. -/
def extractMemInfo (line : String) : Option String :=
  (scanFirst memInfoAt line.data).map List.asString

/-- Python `'sub' in s` (exact substring test, used on already-lowercased
       strings). -/
def strContains (s sub : String) : Bool :=
  (searchCI sub.data s.data).isSome

/-- `str.lower()`. -/
def lowerStr (s : String) : String :=
  (s.data.map Char.toLower).asString

/-! ## Shared data model -/

/-- `snapshot['memory']` as produced by `get_memory_info`. -/
structure MemBlock where
  total_mb : ℚ
  available_mb : ℚ
  used_mb : ℚ
  percent : ℚ
  free_mb : ℚ
  cached_mb : ℚ
  buffers_mb : ℚ
  deriving DecidableEq, Repr

/-- `snapshot['swap']`. -/
structure SwapBlock where
  total_mb : ℚ
  used_mb : ℚ
  free_mb : ℚ
  percent : ℚ
  deriving DecidableEq, Repr

/-- `snapshot['cpu']`. -/
structure CpuBlock where
  total_percent : ℚ
  cores : ℕ
  per_core_percent : List ℚ
  frequency_mhz : Option ℚ
  deriving DecidableEq, Repr

/-- `snapshot['load_average']` (each value absent on unsupported hosts). -/
structure LoadAvg where
  one_min : Option ℚ
  five_min : Option ℚ
  fifteen_min : Option ℚ
  deriving DecidableEq, Repr

/-- One entry of the process list as built by `_get_process_dict`. -/
structure ProcessInfo where
  pid : Int
  name : String
  memory_mb : ℚ
  memory_percent : ℚ
  cpu_percent : ℚ
  status : String
  deriving DecidableEq, Repr

/-- A Python dict standing for a process record: `none` is the empty dict
`{}` that `_get_process_dict` produces on failure. -/
abbrev PDict := Option ProcessInfo

/-- One snapshot as assembled by `collect_snapshot`.  `leak_process = none`
models the key being absent. -/
structure Snapshot where
  timestamp : String
  memory : MemBlock
  swap : SwapBlock
  cpu : CpuBlock
  load_average : LoadAvg
  top_processes : List PDict
  leak_process : Option PDict := none
  deriving DecidableEq, Repr

/-- One OOM event dict as built by `_parse_oom_event` (`type` is always the
literal `"OOM"` in the source and is kept as a field). -/
structure OomEvent where
  timestamp : String
  type : String
  pattern : String
  pid : Option ℕ
  process_name : Option String
  oom_score : Option ℕ
  memory_info : Option String
  raw_line : String
  deriving DecidableEq, Repr

/-- One critical event dict as built by `_parse_critical_event`. -/
structure CriticalEvent where
  timestamp : String
  type : String
  pattern : String
  raw_line : String
  deriving DecidableEq, Repr

/-- One analysis dict as built by `analyze_all_events`. -/
structure Analysis where
  timestamp : String
  total_log_lines : ℕ
  oom_events : List OomEvent
  critical_events : List CriticalEvent
  oom_events_count : ℕ
  critical_events_count : ℕ
  deriving DecidableEq, Repr

namespace KernelEventAnalyzer

/-- `self.oom_patterns`. -/
def oom_patterns : List String :=
  ["Out of memory", "OOM killer", "oom-killer", "killed process",
   "Memory cgroup out of memory", "oom_score"]

/-- `self.critical_patterns`. -/
def critical_patterns : List String :=
  ["kernel.*panic", "kernel.*BUG", "kernel.*WARNING", "kernel.*Oops",
   "segfault", "general protection fault", "page allocation failure",
   "allocation failure"]

/-- `_parse_oom_event(line, pattern)`.  `now` stands for
`datetime.now().isoformat()`, the fallback timestamp.  The source wraps the
body in `try/except` returning `None` on an internal error; every extraction
here is total, so the result is always `some`. -/
def parse_oom_event (now line pattern : String) : Option OomEvent :=
  some
    { timestamp := (extractTimestamp line).getD now
      type := "OOM"
      pattern := pattern
      pid := extractPid line
      process_name := extractProcessName line
      oom_score := extractOomScore line
      memory_info := extractMemInfo line
      raw_line := pyStrip line }

/-- The `if/elif` chain classifying the matched pattern in
`_parse_critical_event`. -/
def critTypeOf (pattern : String) : String :=
  let p := lowerStr pattern
  if strContains p "panic" then "KERNEL_PANIC"
  else if strContains p "bug" then "KERNEL_BUG"
  else if strContains p "warning" then "KERNEL_WARNING"
  else if strContains p "oops" then "KERNEL_OOPS"
  else if strContains p "segfault" then "SEGFAULT"
  else if strContains p "allocation failure" then "MEMORY_ALLOCATION_FAILURE"
  else "UNKNOWN"

/-- `_parse_critical_event(line, pattern)`; `now` as in `parse_oom_event`. -/
def parse_critical_event (now line pattern : String) : Option CriticalEvent :=
  some
    { timestamp := (extractTimestamp line).getD now
      type := critTypeOf pattern
      pattern := pattern
      raw_line := pyStrip line }

/-- The inner `for pattern in self.oom_patterns: ... break` loop of
`analyze_oom_events`: the first matching pattern is parsed and the loop
exits; a `None` parse result is simply not appended. -/
def scanOomLine (now line : String) : List String → List OomEvent
  | [] => []
  | p :: ps =>
    if regexSearch p line then (parse_oom_event now line p).toList
    else scanOomLine now line ps

/-- The inner pattern loop of `analyze_critical_events`. -/
def scanCritLine (now line : String) : List String → List CriticalEvent
  | [] => []
  | p :: ps =>
    if regexSearch p line then (parse_critical_event now line p).toList
    else scanCritLine now line ps

/-- `analyze_oom_events(logs)`: blank lines (`not line.strip()`) are skipped
before any pattern is tested. -/
def analyze_oom_events (now : String) (logs : List String) : List OomEvent :=
  logs.flatMap fun line =>
    if pyStrip line = "" then [] else scanOomLine now line oom_patterns

/-- `analyze_critical_events(logs)`. -/
def analyze_critical_events (now : String) (logs : List String) :
    List CriticalEvent :=
  logs.flatMap fun line =>
    if pyStrip line = "" then [] else scanCritLine now line critical_patterns

/-- `analyze_all_events()`.  The source first calls `read_kernel_logs()`
(external I/O) — its result is the `logs` argument here — and stamps the
analysis with `datetime.now().isoformat()`, the `now` argument. -/
def analyze_all_events (now : String) (logs : List String) : Analysis :=
  let oomEvents := analyze_oom_events now logs
  let criticalEvents := analyze_critical_events now logs
  { timestamp := now
    total_log_lines := logs.length
    oom_events := oomEvents
    critical_events := criticalEvents
    oom_events_count := oomEvents.length
    critical_events_count := criticalEvents.length }

end KernelEventAnalyzer

namespace ResourceMonitor

/-- The data psutil can report for one process (rss in bytes). -/
structure ProcData where
  pid : Int
  name : String
  rss : ℚ
  memory_percent : ℚ
  cpu_percent : ℚ
  status : String
  deriving DecidableEq, Repr

/-- The psutil exceptions caught by the source. -/
inductive PsErr
  | noSuchProcess
  | accessDenied
  deriving DecidableEq, Repr

/-- Outcome of inspecting one process: either its data, or one of the calls
inside `_get_process_dict` raised. -/
abbrev ProcOutcome := Except PsErr ProcData

/-- The external psutil state a sampling call sees: the `process_iter`
enumeration, and `psutil.Process(pid)` construction (`none` means
construction itself raised `NoSuchProcess`). -/
structure ProcEnv where
  procIter : List ProcOutcome
  procLookup : Int → Option ProcOutcome

/-- Exceptions `get_process_info` itself can raise. -/
inductive PyErr
  | keyError
  deriving DecidableEq, Repr

/-- `_get_process_dict(proc)`: on `NoSuchProcess`/`AccessDenied` the source
returns the EMPTY DICT `{}` (here `none`), not `None`. -/
def get_process_dict : ProcOutcome → PDict
  | .ok d =>
    some
      { pid := d.pid
        name := d.name
        memory_mb := round2 (d.rss / (1024 * 1024))
        memory_percent := d.memory_percent
        cpu_percent := d.cpu_percent
        status := d.status }
  | .error _ => none

/-- Stable insertion for the descending sort on the `memory_mb` key. -/
def insertDesc (x : ℚ × PDict) : List (ℚ × PDict) → List (ℚ × PDict)
  | [] => [x]
  | y :: ys => if x.1 > y.1 then x :: y :: ys else y :: insertDesc x ys

/-- `processes.sort(key=lambda x: x['memory_mb'], reverse=True)`: computing
the key of the empty dict `{}` raises `KeyError` (here `none`). -/
def pySortDesc (l : List PDict) : Option (List PDict) :=
  match l.mapM (fun d => d.map fun i => (i.memory_mb, some i)) with
  | none => none
  | some keyed => some ((keyed.foldr insertDesc []).map (·.2))

/-- `get_process_info(pid)`.  With a truthy pid: look that process up
(`NoSuchProcess` on construction is caught and yields `[]`), otherwise
enumerate, convert each process with `_get_process_dict` (whose failures the
dead `except` clause never sees, because `_get_process_dict` already caught
them and returned `{}`), sort by `memory_mb` descending and keep 10. -/
def get_process_info (env : ProcEnv) (pid : Option Int) :
    Except PyErr (List PDict) :=
  if pyTruthy pid then
    match env.procLookup (pid.getD 0) with
    | none => .ok []
    | some oc => .ok [get_process_dict oc]
  else
    match pySortDesc (env.procIter.map get_process_dict) with
    | none => .error .keyError
    | some sorted => .ok (sorted.take 10)

/-- `collect_snapshot(leak_process_pid)`.  The memory/swap/cpu/load reads are
external inputs; `now` is the capture timestamp. -/
def collect_snapshot (now : String) (mem : MemBlock) (swap : SwapBlock)
    (cpu : CpuBlock) (load : LoadAvg) (env : ProcEnv) (pid : Option Int) :
    Except PyErr Snapshot := do
  let top ← get_process_info env none
  let base : Snapshot :=
    { timestamp := now, memory := mem, swap := swap, cpu := cpu
      load_average := load, top_processes := top, leak_process := none }
  if pyTruthy pid then
    let info ← get_process_info env pid
    match info with
    | i :: _ => pure { base with leak_process := some i }
    | [] => pure base
  else
    pure base

/-- One formatted warning string of `check_critical_conditions`, tagged by
which f-string produced it and carrying the interpolated value. -/
inductive Warning
  | criticalMemory (percent : ℚ)
  | warningMemory (percent : ℚ)
  | criticalSwap (percent : ℚ)
  | warningSwap (percent : ℚ)
  | criticalCpu (percent : ℚ)
  | warningCpu (percent : ℚ)
  | criticalAvailable (mb : ℚ)
  deriving DecidableEq, Repr

/-- `check_critical_conditions(snapshot)`: the sequential `append`s of the
source, one two-tier `if/elif` per resource, in the order
memory, swap, cpu, available memory. -/
def check_critical_conditions (s : Snapshot) : List Warning :=
  (if s.memory.percent > 90 then [Warning.criticalMemory s.memory.percent]
   else if s.memory.percent > 75 then [Warning.warningMemory s.memory.percent]
   else []) ++
  (if s.swap.percent > 80 then [Warning.criticalSwap s.swap.percent]
   else if s.swap.percent > 50 then [Warning.warningSwap s.swap.percent]
   else []) ++
  (if s.cpu.total_percent > 90 then [Warning.criticalCpu s.cpu.total_percent]
   else if s.cpu.total_percent > 80 then
     [Warning.warningCpu s.cpu.total_percent]
   else []) ++
  (if s.memory.available_mb < 100 then
     [Warning.criticalAvailable s.memory.available_mb]
   else [])

/-- Written from the specification text for claim C1: per resource pick the
CRITICAL tier if breached, else the WARNING tier if breached, in the fixed
order memory, swap, cpu, available-memory; available memory has only a
CRITICAL tier. -/
def checkCriticalSpec (s : Snapshot) : List Warning :=
  (if 90 < s.memory.percent then [Warning.criticalMemory s.memory.percent]
   else if 75 < s.memory.percent then [Warning.warningMemory s.memory.percent]
   else []) ++
  (if 80 < s.swap.percent then [Warning.criticalSwap s.swap.percent]
   else if 50 < s.swap.percent then [Warning.warningSwap s.swap.percent]
   else []) ++
  (if 90 < s.cpu.total_percent then [Warning.criticalCpu s.cpu.total_percent]
   else if 80 < s.cpu.total_percent then
     [Warning.warningCpu s.cpu.total_percent]
   else []) ++
  (if s.memory.available_mb < 100 then
     [Warning.criticalAvailable s.memory.available_mb]
   else [])

end ResourceMonitor

namespace ReportGenerator

/-- The dict returned by `_generate_executive_summary`: either the "no data"
dict, or the full summary (peak fields hold the values the source formats
with `:.1f`). -/
inductive ExecSummary
  | noData
  | mk (status : String) (monitoring_periods : ℕ) (peak_memory : ℚ)
      (peak_cpu : ℚ) (peak_swap : ℚ) (total_oom : ℕ) (total_critical : ℕ)
  deriving DecidableEq, Repr

/-- The `status` value a summary dict carries. -/
def ExecSummary.statusOf : ExecSummary → String
  | .noData => "Нет данных для анализа"
  | .mk s _ _ _ _ _ _ => s

/-- The dict built by `_analyze_memory` on non-empty data. -/
structure MemAnalysis where
  average_usage_percent : ℚ
  max_usage_percent : ℚ
  min_usage_percent : ℚ
  min_available_mb : ℚ
  memory_pressure_periods : ℕ
  critical_periods : ℕ
  trend : String
  deriving DecidableEq, Repr

/-- The dict built by `_analyze_cpu` on non-empty data. -/
structure CpuAnalysis where
  average_usage_percent : ℚ
  max_usage_percent : ℚ
  min_usage_percent : ℚ
  high_load_periods : ℕ
  critical_periods : ℕ
  trend : String
  deriving DecidableEq, Repr

/-- The dict built by `_analyze_swap` on non-empty data. -/
structure SwapAnalysis where
  average_usage_percent : ℚ
  max_usage_percent : ℚ
  max_used_mb : ℚ
  swap_activity_periods : ℕ
  critical_periods : ℕ
  trend : String
  deriving DecidableEq, Repr

/-- One formatted warning string inside a RESOURCE_CRITICAL entry of
`_analyze_critical_events`, carrying the interpolated value. -/
inductive RWarning
  | memory (percent : ℚ)
  | swap (percent : ℚ)
  | cpu (percent : ℚ)
  deriving DecidableEq, Repr

/-- One entry of the combined critical-event list: a snapshot-derived
RESOURCE_CRITICAL dict, or a kernel critical-event dict. -/
inductive CEntry
  | resource (timestamp : String) (warnings : List RWarning)
  | kernel (e : CriticalEvent)
  deriving DecidableEq, Repr

/-- The dict returned by `_analyze_critical_events`. -/
structure CritAnalysis where
  total_critical_events : ℕ
  events : List CEntry
  deriving DecidableEq, Repr

/-- The dict returned by `_analyze_oom_events`: the not-detected dict (which
carries `total_oom_events = 0`), or the detected one. -/
inductive OomAnalysis
  | notDetected
  | detected (total_oom_events : ℕ) (processes_killed : List (String × ℕ))
      (recent_oom_events : List OomEvent)
  deriving DecidableEq, Repr

/-- One per-snapshot exhaustion flag of `_analyze_resource_exhaustion`
(severity CRITICAL for memory, WARNING for swap, as in the source dicts). -/
inductive ExhaustFlag
  | memory (available_mb : ℚ)
  | swap (free_mb : ℚ)
  deriving DecidableEq, Repr

/-- One snapshot's entry in the exhaustion list. -/
structure ExhaustEvent where
  timestamp : String
  events : List ExhaustFlag
  deriving DecidableEq, Repr

/-- The dict returned by `_analyze_resource_exhaustion` on non-empty data
(`none` at the use site models the `{}` it returns on empty data). -/
structure ExhaustStats where
  exhaustion_events_count : ℕ
  events : List ExhaustEvent
  deriving DecidableEq, Repr

/-- One history point of `_track_leak_process` (missing keys of the
`leak_process` dict default to 0 via `.get(key, 0)`). -/
structure LeakPoint where
  timestamp : String
  memory_mb : ℚ
  memory_percent : ℚ
  cpu_percent : ℚ
  deriving DecidableEq, Repr

/-- The dict returned by `_track_leak_process`: the "not found" dict, or the
tracking record. -/
inductive LeakTrack
  | notFound
  | mk (pid : Int) (history : List LeakPoint) (max_memory_mb : ℚ)
      (memory_growth : ℚ)
  deriving DecidableEq, Repr

/-- One canned recommendation string of `_generate_recommendations`, tagged
by which rule emitted it (the OOM rule interpolates the total count). -/
inductive RecMsg
  | memoryHigh
  | swapHigh
  | oomDetected (total : ℕ)
  | cpuHigh
  | normalOperation
  | insufficientData
  deriving DecidableEq, Repr

/-- `report['report_metadata']`. -/
structure ReportMetadata where
  generated_at : String
  monitoring_periods : ℕ
  kernel_analyses : ℕ
  deriving DecidableEq, Repr

/-- The full report dict.  `Option` fields whose `none` models the empty
dict `{}` are noted at their builders; `leak_process_tracking = none` models
the key being absent. -/
structure Report where
  report_metadata : ReportMetadata
  executive_summary : ExecSummary
  memory_analysis : Option MemAnalysis
  cpu_analysis : Option CpuAnalysis
  swap_analysis : Option SwapAnalysis
  critical_events : CritAnalysis
  oom_analysis : OomAnalysis
  resource_exhaustion : Option ExhaustStats
  recommendations : List RecMsg
  leak_process_tracking : Option LeakTrack
  deriving DecidableEq, Repr

/-- `_calculate_trend(values)`, with Python's float division modelled on ℚ
and `ZeroDivisionError` as `none` (the `len < 2` guard keeps both halves
non-empty, so the result is in fact always `some` — proved at claim C2). -/
def calculate_trend (values : List ℚ) : Option String :=
  if values.length < 2 then some "INSUFFICIENT_DATA"
  else do
    let firstHalf := values.take (values.length / 2)
    let secondHalf := values.drop (values.length / 2)
    let avgFirst ← pyDivNat firstHalf.sum firstHalf.length
    let avgSecond ← pyDivNat secondHalf.sum secondHalf.length
    let diff := avgSecond - avgFirst
    pure
      (if |diff| < 1 then "STABLE"
       else if diff > 5 then "INCREASING"
       else if diff < -5 then "DECREASING"
       else if diff > 0 then "SLIGHTLY_INCREASING"
       else "SLIGHTLY_DECREASING")

/-- Written from the specification text for claim C2: split at
`len(v) / 2` (floor), the extra element of an odd-length series going to the
second half; classify `diff = mean(second) - mean(first)` by
`|diff| < 1` → STABLE, `diff > 5` → INCREASING, `diff < -5` → DECREASING,
otherwise by the sign of `diff`; fewer than two points →
INSUFFICIENT_DATA. -/
def trendSpec (v : List ℚ) : String :=
  if v.length < 2 then "INSUFFICIENT_DATA"
  else
    let firstHalf := v.take (v.length / 2)
    let secondHalf := v.drop (v.length / 2)
    let diff := secondHalf.sum / (secondHalf.length : ℚ) -
      firstHalf.sum / (firstHalf.length : ℚ)
    if |diff| < 1 then "STABLE"
    else if diff > 5 then "INCREASING"
    else if diff < -5 then "DECREASING"
    else if diff > 0 then "SLIGHTLY_INCREASING"
    else "SLIGHTLY_DECREASING"

/-- `sum([e.get('oom_events_count', 0) for e in kernel_events])`. -/
def totalOomOf (ke : List Analysis) : ℕ :=
  (ke.map (·.oom_events_count)).sum

/-- `sum([e.get('critical_events_count', 0) for e in kernel_events])`. -/
def totalCriticalOf (ke : List Analysis) : ℕ :=
  (ke.map (·.critical_events_count)).sum

/-- `_generate_executive_summary(monitoring_data, kernel_events)`. -/
def generate_executive_summary (md : List Snapshot) (ke : List Analysis) :
    Option ExecSummary :=
  if md.isEmpty then some .noData
  else do
    let maxMemory ← pyMax (md.map (·.memory.percent))
    let maxCpu ← pyMax (md.map (·.cpu.total_percent))
    let maxSwap ← pyMax (md.map (·.swap.percent))
    let totalOom := totalOomOf ke
    let totalCritical := totalCriticalOf ke
    let status :=
      if maxMemory > 90 || maxSwap > 80 || totalOom > 0 then "CRITICAL"
      else if maxMemory > 75 || maxSwap > 50 || totalCritical > 0 then
        "WARNING"
      else "NORMAL"
    pure (.mk status md.length maxMemory maxCpu maxSwap totalOom totalCritical)

/-- `_analyze_memory(monitoring_data)`; the inner `Option` is the empty dict
returned on empty data, the outer one models exceptions. -/
def analyze_memory (md : List Snapshot) : Option (Option MemAnalysis) :=
  if md.isEmpty then some none
  else do
    let memoryPercents := md.map (·.memory.percent)
    let availableMbs := md.map (·.memory.available_mb)
    let avg ← pyDivNat memoryPercents.sum memoryPercents.length
    let mx ← pyMax memoryPercents
    let mn ← pyMin memoryPercents
    let mnAv ← pyMin availableMbs
    let trend ← calculate_trend memoryPercents
    pure (some
      { average_usage_percent := round2 avg
        max_usage_percent := round2 mx
        min_usage_percent := round2 mn
        min_available_mb := round2 mnAv
        memory_pressure_periods := (memoryPercents.filter (· > 75)).length
        critical_periods := (memoryPercents.filter (· > 90)).length
        trend := trend })

/-- `_analyze_cpu(monitoring_data)`. -/
def analyze_cpu (md : List Snapshot) : Option (Option CpuAnalysis) :=
  if md.isEmpty then some none
  else do
    let cpuPercents := md.map (·.cpu.total_percent)
    let avg ← pyDivNat cpuPercents.sum cpuPercents.length
    let mx ← pyMax cpuPercents
    let mn ← pyMin cpuPercents
    let trend ← calculate_trend cpuPercents
    pure (some
      { average_usage_percent := round2 avg
        max_usage_percent := round2 mx
        min_usage_percent := round2 mn
        high_load_periods := (cpuPercents.filter (· > 80)).length
        critical_periods := (cpuPercents.filter (· > 90)).length
        trend := trend })

/-- `_analyze_swap(monitoring_data)`. -/
def analyze_swap (md : List Snapshot) : Option (Option SwapAnalysis) :=
  if md.isEmpty then some none
  else do
    let swapPercents := md.map (·.swap.percent)
    let swapUsedMbs := md.map (·.swap.used_mb)
    let avg ← pyDivNat swapPercents.sum swapPercents.length
    let mx ← pyMax swapPercents
    let mxUsed ← pyMax swapUsedMbs
    let trend ← calculate_trend swapPercents
    pure (some
      { average_usage_percent := round2 avg
        max_usage_percent := round2 mx
        max_used_mb := round2 mxUsed
        swap_activity_periods := (swapPercents.filter (· > 50)).length
        critical_periods := (swapPercents.filter (· > 80)).length
        trend := trend })

/-- The per-snapshot warnings of `_analyze_critical_events` (CRITICAL tiers
only, independent of `check_critical_conditions`). -/
def resourceWarnings (s : Snapshot) : List RWarning :=
  (if s.memory.percent > 90 then [RWarning.memory s.memory.percent]
   else []) ++
  (if s.swap.percent > 80 then [RWarning.swap s.swap.percent] else []) ++
  (if s.cpu.total_percent > 90 then [RWarning.cpu s.cpu.total_percent]
   else [])

/-- The combined, order-preserving event list of `_analyze_critical_events`
before truncation: snapshot-derived RESOURCE_CRITICAL entries first, then
every kernel critical event. -/
def critCombined (md : List Snapshot) (ke : List Analysis) : List CEntry :=
  (md.filterMap fun s =>
    let ws := resourceWarnings s
    if ws.isEmpty then none else some (.resource s.timestamp ws)) ++
  ke.flatMap fun a => a.critical_events.map CEntry.kernel

/-- `_analyze_critical_events(monitoring_data, kernel_events)`: the total is
the length of the full combined list, the events are its first 50. -/
def analyze_critical_events (md : List Snapshot) (ke : List Analysis) :
    CritAnalysis :=
  let combined := critCombined md ke
  { total_critical_events := combined.length, events := combined.take 50 }

/-- The union of all OOM events across the analysis history. -/
def allOomEvents (ke : List Analysis) : List OomEvent :=
  ke.flatMap (·.oom_events)

/-- One `processes_killed[event['process_name']] += 1` step on the
insertion-ordered dict. -/
def addKill (name : String) : List (String × ℕ) → List (String × ℕ)
  | [] => [(name, 1)]
  | (k, c) :: rest =>
    if k = name then (k, c + 1) :: rest else (k, c) :: addKill name rest

/-- The `defaultdict(int)` grouping loop: events lacking a process name are
skipped. -/
def processesKilled (events : List OomEvent) : List (String × ℕ) :=
  events.foldl
    (fun acc e =>
      match e.process_name with
      | some n => addKill n acc
      | none => acc)
    []

/-- Lookup in the kill-count dict (an absent key reads as count 0). -/
def getCount (l : List (String × ℕ)) (name : String) : ℕ :=
  ((l.find? fun p => p.1 = name).map (·.2)).getD 0

/-- `_analyze_oom_events(kernel_events)`. -/
def analyze_oom_events (ke : List Analysis) : OomAnalysis :=
  let all := allOomEvents ke
  if all.isEmpty then .notDetected
  else
    .detected all.length (processesKilled all) (all.drop (all.length - 10))

/-- `_analyze_resource_exhaustion(monitoring_data)`; `none` is the empty
dict returned on empty data. -/
def analyze_resource_exhaustion (md : List Snapshot) : Option ExhaustStats :=
  if md.isEmpty then none
  else
    let exhaustionEvents := md.filterMap fun s =>
      let events :=
        (if s.memory.available_mb < 50 then
           [ExhaustFlag.memory s.memory.available_mb]
         else []) ++
        (if s.swap.free_mb < 100 && s.swap.total_mb > 0 then
           [ExhaustFlag.swap s.swap.free_mb]
         else [])
      if events.isEmpty then none
      else some { timestamp := s.timestamp, events := events }
    some
      { exhaustion_events_count := exhaustionEvents.length
        events := exhaustionEvents }

/-- `_track_leak_process(monitoring_data, leak_process_pid)` (the `max` over
the non-empty history is the only failure point, hence the outer
`Option`). -/
def track_leak_process (md : List Snapshot) (pid : Int) :
    Option LeakTrack :=
  let leakHistory := md.filterMap fun s =>
    match s.leak_process with
    | some p =>
      some
        { timestamp := s.timestamp
          memory_mb := ((p.map (·.memory_mb)).getD 0 : ℚ)
          memory_percent := ((p.map (·.memory_percent)).getD 0 : ℚ)
          cpu_percent := ((p.map (·.cpu_percent)).getD 0 : ℚ) }
    | none => none
  if leakHistory.isEmpty then some .notFound
  else do
    let mx ← pyMax (leakHistory.map (·.memory_mb))
    let growth :=
      (leakHistory.getLast?.map (·.memory_mb)).getD 0 -
        (leakHistory.head?.map (·.memory_mb)).getD 0
    pure (.mk pid leakHistory mx growth)

/-- `_generate_recommendations(monitoring_data, kernel_events)`. -/
def generate_recommendations (md : List Snapshot) (ke : List Analysis) :
    Option (List RecMsg) :=
  if md.isEmpty then some [.insufficientData]
  else do
    let maxMemory ← pyMax (md.map (·.memory.percent))
    let maxSwap ← pyMax (md.map (·.swap.percent))
    let totalOom := totalOomOf ke
    let maxCpu ← pyMax (md.map (·.cpu.total_percent))
    let recs :=
      (if maxMemory > 90 then [RecMsg.memoryHigh] else []) ++
      (if maxSwap > 80 then [RecMsg.swapHigh] else []) ++
      (if totalOom > 0 then [RecMsg.oomDetected totalOom] else []) ++
      (if maxCpu > 90 then [RecMsg.cpuHigh] else [])
    pure (if recs.isEmpty then [RecMsg.normalOperation] else recs)

/-- `generate_report(monitoring_data, kernel_events, leak_process_pid)`;
`now` stands for `datetime.now().isoformat()`. -/
def generate_report (now : String) (md : List Snapshot) (ke : List Analysis)
    (pid : Option Int) : Option Report := do
  let summary ← generate_executive_summary md ke
  let memA ← analyze_memory md
  let cpuA ← analyze_cpu md
  let swapA ← analyze_swap md
  let recs ← generate_recommendations md ke
  let report : Report :=
    { report_metadata :=
        { generated_at := now
          monitoring_periods := md.length
          kernel_analyses := ke.length }
      executive_summary := summary
      memory_analysis := memA
      cpu_analysis := cpuA
      swap_analysis := swapA
      critical_events := analyze_critical_events md ke
      oom_analysis := analyze_oom_events ke
      resource_exhaustion := analyze_resource_exhaustion md
      recommendations := recs
      leak_process_tracking := none }
  if pyTruthy pid then do
    let t ← track_leak_process md (pid.getD 0)
    pure { report with leak_process_tracking := some t }
  else
    pure report

end ReportGenerator

/-! ## Concrete instances used by witnesses and counterexamples -/

/-- An OOM event with its timestamp field blanked, for comparing two scans
up to the processing-time fallback. -/
def eraseTs (e : OomEvent) : OomEvent := { e with timestamp := "" }

/-- A critical event with its timestamp field blanked. -/
def eraseTsCrit (e : CriticalEvent) : CriticalEvent := { e with timestamp := "" }

/-- A process whose inspection succeeds (1 MB resident). -/
def pdOk : ResourceMonitor.ProcData :=
  { pid := 1, name := "init", rss := 1048576, memory_percent := 1
    cpu_percent := 1, status := "running" }

/-- A psutil view with one readable process and one raising
`AccessDenied` during inspection. -/
def env1 : ResourceMonitor.ProcEnv :=
  { procIter := [.ok pdOk, .error .accessDenied], procLookup := fun _ => none }

/-- A psutil view where looking up any pid yields a process that raises
`AccessDenied` during inspection. -/
def env2 : ResourceMonitor.ProcEnv :=
  { procIter := [], procLookup := fun _ => some (.error .accessDenied) }

/-- Placeholder host counters for concrete snapshots. -/
def memB : MemBlock :=
  { total_mb := 1000, available_mb := 500, used_mb := 500, percent := 50
    free_mb := 500, cached_mb := 0, buffers_mb := 0 }

/-- Placeholder swap counters. -/
def swapB : SwapBlock := { total_mb := 100, used_mb := 10, free_mb := 90, percent := 10 }

/-- Placeholder cpu counters. -/
def cpuB : CpuBlock :=
  { total_percent := 20, cores := 1, per_core_percent := [20], frequency_mhz := none }

/-- Placeholder load averages. -/
def loadB : LoadAvg := { one_min := none, five_min := none, fifteen_min := none }

/-- A snapshot with memory at 95 percent and everything else quiet. -/
def snap95 : Snapshot :=
  { timestamp := "t0", memory := { memB with percent := 95 }, swap := swapB
    cpu := cpuB, load_average := loadB, top_processes := [], leak_process := none }

/-- One kernel critical event, repeated to overflow the 50-entry cap. -/
def ev51 : CriticalEvent :=
  { timestamp := "t", type := "KERNEL_PANIC", pattern := "kernel.*panic"
    raw_line := "kernel panic" }

/-- An analysis carrying 51 kernel critical events. -/
def anal51 : Analysis :=
  { timestamp := "t", total_log_lines := 51, oom_events := []
    critical_events := List.replicate 51 ev51, oom_events_count := 0
    critical_events_count := 51 }

/-- An OOM kill of firefox seen in the first analysis. -/
def evFF1 : OomEvent :=
  { timestamp := "t1", type := "OOM", pattern := "Out of memory", pid := some 10
    process_name := some "firefox", oom_score := none, memory_info := none
    raw_line := "Out of memory: killed process firefox" }

/-- An OOM kill of chrome seen in the first analysis. -/
def evCH : OomEvent :=
  { timestamp := "t1", type := "OOM", pattern := "killed process", pid := some 11
    process_name := some "chrome", oom_score := none, memory_info := none
    raw_line := "killed process chrome" }

/-- A second OOM kill of firefox seen in the second analysis. -/
def evFF2 : OomEvent :=
  { timestamp := "t2", type := "OOM", pattern := "Out of memory", pid := some 12
    process_name := some "firefox", oom_score := none, memory_info := none
    raw_line := "Out of memory: killed process firefox" }

/-- Two analyses carrying the firefox/firefox/chrome kill events. -/
def keFFCH : List Analysis :=
  [{ timestamp := "t1", total_log_lines := 2, oom_events := [evFF1, evCH]
     critical_events := [], oom_events_count := 2, critical_events_count := 0 },
   { timestamp := "t2", total_log_lines := 1, oom_events := [evFF2]
     critical_events := [], oom_events_count := 1, critical_events_count := 0 }]

/-! ## Helper lemmas -/

/-- Membership in a two-tier `if/elif` segment. -/
theorem mem_tier_iff {α : Type} (w w1 w2 : α) (c1 c2 : Prop) [Decidable c1]
    [Decidable c2] :
    (w ∈ if c1 then [w1] else if c2 then [w2] else []) ↔
      (c1 ∧ w = w1) ∨ (¬c1 ∧ c2 ∧ w = w2) := by
  split_ifs <;> simp_all

/-- Membership in a single-tier `if` segment. -/
theorem mem_single_iff {α : Type} (w w1 : α) (c1 : Prop) [Decidable c1] :
    (w ∈ if c1 then [w1] else []) ↔ c1 ∧ w = w1 := by
  split_ifs <;> simp_all

/-! ## Claim theorems -/

/-- Claim C1: for every snapshot, `check_critical_conditions` equals the
tier-selection form written from the spec (fixed order memory, swap, cpu,
available-memory, higher tier winning per row, at most one warning per row),
and emits: CRITICAL memory iff percent > 90, else WARNING memory iff
percent > 75; CRITICAL swap iff > 80, else WARNING swap iff > 50; CRITICAL
cpu iff > 90, else WARNING cpu iff > 80; and CRITICAL available-memory iff
available < 100 MB. -/
theorem C1_check_critical_conditions (s : Snapshot) :
    ResourceMonitor.check_critical_conditions s =
      ResourceMonitor.checkCriticalSpec s ∧
    (ResourceMonitor.Warning.criticalMemory s.memory.percent ∈
        ResourceMonitor.check_critical_conditions s ↔ 90 < s.memory.percent) ∧
    (ResourceMonitor.Warning.warningMemory s.memory.percent ∈
        ResourceMonitor.check_critical_conditions s ↔
      ¬ 90 < s.memory.percent ∧ 75 < s.memory.percent) ∧
    (ResourceMonitor.Warning.criticalSwap s.swap.percent ∈
        ResourceMonitor.check_critical_conditions s ↔ 80 < s.swap.percent) ∧
    (ResourceMonitor.Warning.warningSwap s.swap.percent ∈
        ResourceMonitor.check_critical_conditions s ↔
      ¬ 80 < s.swap.percent ∧ 50 < s.swap.percent) ∧
    (ResourceMonitor.Warning.criticalCpu s.cpu.total_percent ∈
        ResourceMonitor.check_critical_conditions s ↔
      90 < s.cpu.total_percent) ∧
    (ResourceMonitor.Warning.warningCpu s.cpu.total_percent ∈
        ResourceMonitor.check_critical_conditions s ↔
      ¬ 90 < s.cpu.total_percent ∧ 80 < s.cpu.total_percent) ∧
    (ResourceMonitor.Warning.criticalAvailable s.memory.available_mb ∈
        ResourceMonitor.check_critical_conditions s ↔
      s.memory.available_mb < 100) := by
  refine ⟨rfl, ?_, ?_, ?_, ?_, ?_, ?_, ?_⟩ <;>
    simp [ResourceMonitor.check_critical_conditions, List.mem_append,
      mem_tier_iff, mem_single_iff]

/-- Claim C1, instantiated: memory percent 95 yields the CRITICAL memory
warning and not the WARNING one. -/
theorem C1_witness :
    ResourceMonitor.Warning.criticalMemory (95 : ℚ) ∈
      ResourceMonitor.check_critical_conditions snap95 ∧
    ¬ ResourceMonitor.Warning.warningMemory (95 : ℚ) ∈
      ResourceMonitor.check_critical_conditions snap95 := by
  have h := C1_check_critical_conditions snap95
  exact ⟨h.2.1.mpr (by norm_num [snap95, memB]), fun hm =>
    absurd (h.2.2.1.mp hm).1 (not_not_intro (by norm_num [snap95, memB]))⟩

/-- Claim C2: `_calculate_trend` never fails and computes exactly the
spec-side classification (INSUFFICIENT_DATA below two points; halves split
by floor division with the extra element in the second half;
`|diff| < 1` → STABLE, `diff > 5` → INCREASING, `diff < -5` → DECREASING,
otherwise by the sign of `diff`), including the four quoted examples, with
`[50, 40]` → DECREASING. -/
theorem C2_calculate_trend :
    (∀ v : List ℚ,
      ReportGenerator.calculate_trend v = some (ReportGenerator.trendSpec v)) ∧
    ReportGenerator.calculate_trend [10, 10, 10, 10] = some "STABLE" ∧
    ReportGenerator.calculate_trend [10, 10, 20, 20] = some "INCREASING" ∧
    ReportGenerator.calculate_trend [50, 40] = some "DECREASING" ∧
    ReportGenerator.calculate_trend [10] = some "INSUFFICIENT_DATA" := by
  refine ⟨?_, by norm_num [ReportGenerator.calculate_trend, pyDivNat],
    by norm_num [ReportGenerator.calculate_trend, pyDivNat],
    by norm_num [ReportGenerator.calculate_trend, pyDivNat],
    by norm_num [ReportGenerator.calculate_trend]⟩
  intro v
  by_cases h : v.length < 2
  · simp [ReportGenerator.calculate_trend, ReportGenerator.trendSpec, h]
  · have h1 : (v.take (v.length / 2)).length = v.length / 2 := by
      rw [List.length_take]; omega
    have h2 : (v.drop (v.length / 2)).length = v.length - v.length / 2 :=
      List.length_drop _ _
    have hne1 : (v.take (v.length / 2)).length ≠ 0 := by rw [h1]; omega
    have hne2 : (v.drop (v.length / 2)).length ≠ 0 := by rw [h2]; omega
    unfold ReportGenerator.calculate_trend ReportGenerator.trendSpec pyDivNat
    simp only [if_neg h, if_neg hne1, if_neg hne2]
    rfl

/-- Claim C10: a tracked pid of 0 is falsy everywhere: `get_process_info 0`
takes the enumerate-all branch, `collect_snapshot` with pid 0 attaches no
`leak_process` field, and `generate_report` with pid 0 omits the
tracked-process roll-up — each call behaving exactly as with no pid. -/
theorem C10_pid_zero :
    (∀ env : ResourceMonitor.ProcEnv,
      ResourceMonitor.get_process_info env (some 0) =
        ResourceMonitor.get_process_info env none) ∧
    (∀ (now : String) (mem : MemBlock) (swap : SwapBlock) (cpu : CpuBlock)
        (load : LoadAvg) (env : ResourceMonitor.ProcEnv),
      ResourceMonitor.collect_snapshot now mem swap cpu load env (some 0) =
        ResourceMonitor.collect_snapshot now mem swap cpu load env none) ∧
    (∀ (now : String) (mem : MemBlock) (swap : SwapBlock) (cpu : CpuBlock)
        (load : LoadAvg) (env : ResourceMonitor.ProcEnv),
      (ResourceMonitor.collect_snapshot now mem swap cpu load env none).map
          (·.leak_process) =
        (ResourceMonitor.collect_snapshot now mem swap cpu load env none).map
          (fun _ => none)) ∧
    (∀ (now : String) (md : List Snapshot) (ke : List Analysis),
      ReportGenerator.generate_report now md ke (some 0) =
        ReportGenerator.generate_report now md ke none) ∧
    (∀ (now : String) (md : List Snapshot) (ke : List Analysis),
      (ReportGenerator.generate_report now md ke none).map
          (·.leak_process_tracking) =
        (ReportGenerator.generate_report now md ke none).map (fun _ => none)) := by
  refine ⟨fun env => rfl, fun now mem swap cpu load env => rfl, ?_,
    fun now md ke => rfl, ?_⟩
  · intro now mem swap cpu load env
    unfold ResourceMonitor.collect_snapshot
    cases hg : ResourceMonitor.get_process_info env none <;> rfl
  · intro now md ke
    unfold ReportGenerator.generate_report
    cases ReportGenerator.generate_executive_summary md ke
    · rfl
    cases ReportGenerator.analyze_memory md
    · rfl
    cases ReportGenerator.analyze_cpu md
    · rfl
    cases ReportGenerator.analyze_swap md
    · rfl
    cases ReportGenerator.generate_recommendations md ke
    · rfl
    · rfl

/-- Claim C4: report generation on an empty snapshot history, for any
analysis history and any tracked pid, returns a report (never raises, all
modelled failure points — `max` of an empty list, division by zero — are
avoided) whose executive summary is the "no data" dict and whose
memory/cpu/swap statistics blocks are the empty dict. -/
theorem C4_empty_history (now : String) (ke : List Analysis)
    (pid : Option Int) :
    (ReportGenerator.generate_report now [] ke pid).map
        (·.executive_summary) = some .noData ∧
    (ReportGenerator.generate_report now [] ke pid).map
        (·.memory_analysis) = some none ∧
    (ReportGenerator.generate_report now [] ke pid).map
        (·.cpu_analysis) = some none ∧
    (ReportGenerator.generate_report now [] ke pid).map
        (·.swap_analysis) = some none := by
  refine ⟨?_, ?_, ?_, ?_⟩ <;> cases hp : pyTruthy pid <;>
    simp [ReportGenerator.generate_report, hp,
      ReportGenerator.generate_executive_summary,
      ReportGenerator.analyze_memory, ReportGenerator.analyze_cpu,
      ReportGenerator.analyze_swap, ReportGenerator.generate_recommendations,
      ReportGenerator.track_leak_process]

/-- The break-at-first-match loop of the OOM scan is the first matching
pattern of the ordered list. -/
theorem scanOomLine_eq_find (now line : String) (ps : List String) :
    KernelEventAnalyzer.scanOomLine now line ps =
      match ps.find? (fun p => regexSearch p line) with
      | some p => (KernelEventAnalyzer.parse_oom_event now line p).toList
      | none => [] := by
  induction ps with
  | nil => rfl
  | cons p ps ih =>
    by_cases h : regexSearch p line
    · simp [KernelEventAnalyzer.scanOomLine, List.find?, h]
    · simp [KernelEventAnalyzer.scanOomLine, List.find?, h, ih]

/-- The break-at-first-match loop of the critical scan is the first matching
pattern of the ordered list. -/
theorem scanCritLine_eq_find (now line : String) (ps : List String) :
    KernelEventAnalyzer.scanCritLine now line ps =
      match ps.find? (fun p => regexSearch p line) with
      | some p => (KernelEventAnalyzer.parse_critical_event now line p).toList
      | none => [] := by
  induction ps with
  | nil => rfl
  | cons p ps ih =>
    by_cases h : regexSearch p line
    · simp [KernelEventAnalyzer.scanCritLine, List.find?, h]
    · simp [KernelEventAnalyzer.scanCritLine, List.find?, h, ih]

/-- Claim C6: in both scans, a blank or whitespace-only line is skipped
before any pattern is tested and contributes no event; a non-blank line is
tested against the ordered pattern list with scanning stopping at the first
match, so each line contributes the events of its first matching pattern
only — at most one event per line per scan. -/
theorem C6_blank_skip_first_match (now : String) (logs : List String)
    (line : String) :
    KernelEventAnalyzer.analyze_oom_events now logs =
      (logs.flatMap fun l =>
        if pyStrip l = "" then []
        else
          match KernelEventAnalyzer.oom_patterns.find?
              (fun p => regexSearch p l) with
          | some p => (KernelEventAnalyzer.parse_oom_event now l p).toList
          | none => []) ∧
    KernelEventAnalyzer.analyze_critical_events now logs =
      (logs.flatMap fun l =>
        if pyStrip l = "" then []
        else
          match KernelEventAnalyzer.critical_patterns.find?
              (fun p => regexSearch p l) with
          | some p => (KernelEventAnalyzer.parse_critical_event now l p).toList
          | none => []) ∧
    (if pyStrip line = "" then []
      else KernelEventAnalyzer.scanOomLine now line
        KernelEventAnalyzer.oom_patterns).length ≤ 1 ∧
    (if pyStrip line = "" then []
      else KernelEventAnalyzer.scanCritLine now line
        KernelEventAnalyzer.critical_patterns).length ≤ 1 := by
  refine ⟨?_, ?_, ?_, ?_⟩
  · unfold KernelEventAnalyzer.analyze_oom_events
    rw [show (fun l => if pyStrip l = "" then []
        else KernelEventAnalyzer.scanOomLine now l
          KernelEventAnalyzer.oom_patterns) =
      (fun l => if pyStrip l = "" then []
        else
          match KernelEventAnalyzer.oom_patterns.find?
              (fun p => regexSearch p l) with
          | some p => (KernelEventAnalyzer.parse_oom_event now l p).toList
          | none => []) from funext fun l => by rw [scanOomLine_eq_find]]
  · unfold KernelEventAnalyzer.analyze_critical_events
    rw [show (fun l => if pyStrip l = "" then []
        else KernelEventAnalyzer.scanCritLine now l
          KernelEventAnalyzer.critical_patterns) =
      (fun l => if pyStrip l = "" then []
        else
          match KernelEventAnalyzer.critical_patterns.find?
              (fun p => regexSearch p l) with
          | some p => (KernelEventAnalyzer.parse_critical_event now l p).toList
          | none => []) from funext fun l => by rw [scanCritLine_eq_find]]
  · by_cases h : pyStrip line = ""
    · simp [h]
    · rw [if_neg h, scanOomLine_eq_find]
      cases KernelEventAnalyzer.oom_patterns.find?
          (fun p => regexSearch p line) <;>
        simp [KernelEventAnalyzer.parse_oom_event]
  · by_cases h : pyStrip line = ""
    · simp [h]
    · rw [if_neg h, scanCritLine_eq_find]
      cases KernelEventAnalyzer.critical_patterns.find?
          (fun p => regexSearch p line) <;>
        simp [KernelEventAnalyzer.parse_critical_event]

/-- The per-line OOM scan is independent of the processing time once event
timestamps are blanked. -/
theorem scanOomLine_eraseTs (line now1 now2 : String) (ps : List String) :
    (KernelEventAnalyzer.scanOomLine now1 line ps).map eraseTs =
      (KernelEventAnalyzer.scanOomLine now2 line ps).map eraseTs := by
  induction ps with
  | nil => rfl
  | cons p ps ih =>
    by_cases h : regexSearch p line
    · simp only [KernelEventAnalyzer.scanOomLine, if_pos h]
      rfl
    · simp only [KernelEventAnalyzer.scanOomLine, if_neg h]
      exact ih

/-- The per-line critical scan is independent of the processing time once
event timestamps are blanked. -/
theorem scanCritLine_eraseTs (line now1 now2 : String) (ps : List String) :
    (KernelEventAnalyzer.scanCritLine now1 line ps).map eraseTsCrit =
      (KernelEventAnalyzer.scanCritLine now2 line ps).map eraseTsCrit := by
  induction ps with
  | nil => rfl
  | cons p ps ih =>
    by_cases h : regexSearch p line
    · simp only [KernelEventAnalyzer.scanCritLine, if_pos h]
      rfl
    · simp only [KernelEventAnalyzer.scanCritLine, if_neg h]
      exact ih

/-- The OOM scan of a whole log is independent of the processing time once
event timestamps are blanked. -/
theorem analyze_oom_events_eraseTs (logs : List String) (now1 now2 : String) :
    (KernelEventAnalyzer.analyze_oom_events now1 logs).map eraseTs =
      (KernelEventAnalyzer.analyze_oom_events now2 logs).map eraseTs := by
  unfold KernelEventAnalyzer.analyze_oom_events
  induction logs with
  | nil => rfl
  | cons l ls ih =>
    simp only [List.flatMap_cons, List.map_append, ih]
    congr 1
    by_cases h : pyStrip l = ""
    · simp [h]
    · simpa [h] using scanOomLine_eraseTs l now1 now2 _

/-- The critical scan of a whole log is independent of the processing time
once event timestamps are blanked. -/
theorem analyze_critical_events_eraseTs (logs : List String)
    (now1 now2 : String) :
    (KernelEventAnalyzer.analyze_critical_events now1 logs).map eraseTsCrit =
      (KernelEventAnalyzer.analyze_critical_events now2 logs).map
        eraseTsCrit := by
  unfold KernelEventAnalyzer.analyze_critical_events
  induction logs with
  | nil => rfl
  | cons l ls ih =>
    simp only [List.flatMap_cons, List.map_append, ih]
    congr 1
    by_cases h : pyStrip l = ""
    · simp [h]
    · simpa [h] using scanCritLine_eraseTs l now1 now2 _

/-- Claim C8, counterexample: two runs of `analyze_all_events` on the very
same single-line input, at different processing instants, agree on the line
count and on both event counts, yet their OOM event sequences are NOT
identical field for field — the event timestamp is the run's processing
time, because the line carries no embedded timestamp. -/
theorem C8_counterexample :
    (KernelEventAnalyzer.analyze_all_events "2020-01-01T00:00:00"
        ["Out of memory"]).total_log_lines =
      (KernelEventAnalyzer.analyze_all_events "2020-01-01T00:00:01"
        ["Out of memory"]).total_log_lines ∧
    (KernelEventAnalyzer.analyze_all_events "2020-01-01T00:00:00"
        ["Out of memory"]).oom_events_count =
      (KernelEventAnalyzer.analyze_all_events "2020-01-01T00:00:01"
        ["Out of memory"]).oom_events_count ∧
    (KernelEventAnalyzer.analyze_all_events "2020-01-01T00:00:00"
        ["Out of memory"]).critical_events_count =
      (KernelEventAnalyzer.analyze_all_events "2020-01-01T00:00:01"
        ["Out of memory"]).critical_events_count ∧
    (KernelEventAnalyzer.analyze_all_events "2020-01-01T00:00:00"
        ["Out of memory"]).oom_events ≠
      (KernelEventAnalyzer.analyze_all_events "2020-01-01T00:00:01"
        ["Out of memory"]).oom_events := by
  exact ⟨by decide, by decide, by decide, by decide⟩

/-- Claim C8, amended: two runs of `analyze_all_events` on the same input
yield Analyses with the same total line count, the same OOM and critical
event counts, and event sequences identical in every field except the
timestamp, which follows the run's processing time whenever a line carries
no embedded ISO timestamp (runs at one and the same processing instant are
fully identical, the functions being deterministic). -/
theorem C8_analyze_all_determinism (logs : List String)
    (now1 now2 : String) :
    (KernelEventAnalyzer.analyze_all_events now1 logs).total_log_lines =
      (KernelEventAnalyzer.analyze_all_events now2 logs).total_log_lines ∧
    (KernelEventAnalyzer.analyze_all_events now1 logs).oom_events_count =
      (KernelEventAnalyzer.analyze_all_events now2 logs).oom_events_count ∧
    (KernelEventAnalyzer.analyze_all_events now1 logs).critical_events_count =
      (KernelEventAnalyzer.analyze_all_events now2 logs).critical_events_count ∧
    (KernelEventAnalyzer.analyze_all_events now1 logs).oom_events.map
        eraseTs =
      (KernelEventAnalyzer.analyze_all_events now2 logs).oom_events.map
        eraseTs ∧
    (KernelEventAnalyzer.analyze_all_events now1 logs).critical_events.map
        eraseTsCrit =
      (KernelEventAnalyzer.analyze_all_events now2 logs).critical_events.map
        eraseTsCrit := by
  have hoom := analyze_oom_events_eraseTs logs now1 now2
  have hcrit := analyze_critical_events_eraseTs logs now1 now2
  refine ⟨rfl, ?_, ?_, hoom, hcrit⟩
  · have := congrArg List.length hoom
    simpa [KernelEventAnalyzer.analyze_all_events] using this
  · have := congrArg List.length hcrit
    simpa [KernelEventAnalyzer.analyze_all_events] using this

/-- Claim C9: the critical-event roll-up reports as `total_critical_events`
the length of the full combined list (snapshot-derived RESOURCE_CRITICAL
entries followed by all kernel critical events) while returning only its
first 50 entries as `events`; so with more than 50 combined events the total
exceeds the length of the returned list. -/
theorem C9_critical_rollup (md : List Snapshot) (ke : List Analysis) :
    (ReportGenerator.analyze_critical_events md ke).total_critical_events =
      (ReportGenerator.critCombined md ke).length ∧
    (ReportGenerator.analyze_critical_events md ke).events =
      (ReportGenerator.critCombined md ke).take 50 ∧
    (50 < (ReportGenerator.critCombined md ke).length →
      (ReportGenerator.analyze_critical_events md ke).events.length <
        (ReportGenerator.analyze_critical_events md ke).total_critical_events) := by
  refine ⟨rfl, rfl, fun h => ?_⟩
  simp only [ReportGenerator.analyze_critical_events, List.length_take]
  omega

/-- Claim C9, instantiated: one analysis carrying 51 kernel critical events
overflows the 50-entry cap, and the reported total exceeds the length of the
returned event list. -/
theorem C9_witness :
    50 < (ReportGenerator.critCombined [] [anal51]).length ∧
    (ReportGenerator.analyze_critical_events [] [anal51]).events.length <
      (ReportGenerator.analyze_critical_events [] [anal51]).total_critical_events :=
  ⟨by decide, (C9_critical_rollup [] [anal51]).2.2 (by decide)⟩

/-- Claim C5 is contradicted by the code: `_get_process_dict` swallows
`NoSuchProcess`/`AccessDenied` and returns the empty dict `{}`, which the
caller appends (its own `except ... continue` never fires).  Hence, with one
readable process and one raising `AccessDenied`, the enumerate-all branch
raises `KeyError` while computing the sort key of `{}` — the enclosing call
fails; and with a tracked pid whose inspection raises, `get_process_info`
returns `[{}]` and `collect_snapshot` attaches the empty record as
`leak_process`. -/
theorem C5_partial_record_bug :
    ResourceMonitor.get_process_info env1 none =
      .error ResourceMonitor.PyErr.keyError ∧
    ResourceMonitor.get_process_info env2 (some 5) = .ok [none] ∧
    (ResourceMonitor.collect_snapshot "t" memB swapB cpuB loadB env2
        (some 5)).map (·.leak_process) = .ok (some none) :=
  ⟨rfl, rfl, rfl⟩

/-- `getCount` on a cons cell of the kill dict. -/
theorem getCount_cons (k : String) (c : ℕ) (l : List (String × ℕ))
    (name : String) :
    ReportGenerator.getCount ((k, c) :: l) name =
      if k = name then c else ReportGenerator.getCount l name := by
  by_cases h : k = name <;> simp [ReportGenerator.getCount, List.find?, h]

/-- One increment step on the kill dict raises exactly the incremented
key's count. -/
theorem getCount_addKill (l : List (String × ℕ)) (n name : String) :
    ReportGenerator.getCount (ReportGenerator.addKill n l) name =
      ReportGenerator.getCount l name + (if n = name then 1 else 0) := by
  induction l with
  | nil =>
    by_cases h : n = name <;>
      simp [ReportGenerator.addKill, ReportGenerator.getCount, List.find?, h]
  | cons kv l ih =>
    obtain ⟨k, c⟩ := kv
    by_cases hk : k = n
    · subst hk
      by_cases hn : k = name <;>
        simp [ReportGenerator.addKill, getCount_cons, hn]
    · have hnk : ¬ n = k := fun h => hk h.symm
      by_cases hn : k = name
      · subst hn
        simp [ReportGenerator.addKill, hk, getCount_cons, hnk]
      · simp [ReportGenerator.addKill, hk, getCount_cons, hn, ih]

/-- The grouping fold counts, for each name, exactly the events carrying
that process name. -/
theorem getCount_fold (evs : List OomEvent) (name : String) :
    ∀ acc : List (String × ℕ),
      ReportGenerator.getCount
          (evs.foldl
            (fun acc e =>
              match e.process_name with
              | some n => ReportGenerator.addKill n acc
              | none => acc)
            acc) name =
        ReportGenerator.getCount acc name +
          (evs.filter fun e => e.process_name = some name).length := by
  induction evs with
  | nil => simp
  | cons e evs ih =>
    intro acc
    cases he : e.process_name with
    | none => simp [List.foldl_cons, List.filter_cons, he, ih]
    | some n =>
      by_cases hn : n = name <;>
        (simp [List.foldl_cons, List.filter_cons, he, hn, ih,
          getCount_addKill]; try omega)

/-- Claim C7: the OOM roll-up unions all OOM events across the analyses in
order; an empty union reports not-detected (total 0); otherwise the total is
the full event count, the kill mapping counts, per process name, exactly the
events carrying that name (events lacking a name are counted in the total
but in no mapping entry), and the last 10 events are returned in original
order.  Concretely, firefox killed twice and chrome once across two analyses
yields total 3 and the mapping firefox 2, chrome 1. -/
theorem C7_oom_rollup :
    (∀ ke : List Analysis,
      ReportGenerator.analyze_oom_events ke =
        if (ReportGenerator.allOomEvents ke).isEmpty then .notDetected
        else
          .detected (ReportGenerator.allOomEvents ke).length
            (ReportGenerator.processesKilled (ReportGenerator.allOomEvents ke))
            ((ReportGenerator.allOomEvents ke).drop
              ((ReportGenerator.allOomEvents ke).length - 10))) ∧
    (∀ (ke : List Analysis) (name : String),
      ReportGenerator.getCount
          (ReportGenerator.processesKilled (ReportGenerator.allOomEvents ke))
          name =
        ((ReportGenerator.allOomEvents ke).filter
          (fun e => e.process_name = some name)).length) ∧
    ReportGenerator.analyze_oom_events keFFCH =
      .detected 3 [("firefox", 2), ("chrome", 1)] [evFF1, evCH, evFF2] := by
  refine ⟨fun ke => rfl, fun ke name => ?_, by decide⟩
  have h := getCount_fold (ReportGenerator.allOomEvents ke) name []
  simpa [ReportGenerator.processesKilled, ReportGenerator.getCount] using h

/-- Claim C3: on a non-empty snapshot history (witnessed by the maxima of
the memory and swap percent series existing), the executive-summary status
is CRITICAL iff max memory percent > 90 or max swap percent > 80 or the
summed OOM count is positive; otherwise WARNING iff max memory > 75 or max
swap > 50 or the summed critical count is positive; otherwise NORMAL. -/
theorem C3_executive_summary (d : Snapshot) (tl : List Snapshot)
    (ke : List Analysis) (mM mS : ℚ)
    (hM : pyMax ((d :: tl).map (·.memory.percent)) = some mM)
    (hS : pyMax ((d :: tl).map (·.swap.percent)) = some mS) :
    ∃ s : ReportGenerator.ExecSummary,
      ReportGenerator.generate_executive_summary (d :: tl) ke = some s ∧
      (s.statusOf = "CRITICAL" ↔
        90 < mM ∨ 80 < mS ∨ 0 < ReportGenerator.totalOomOf ke) ∧
      (s.statusOf = "WARNING" ↔
        ¬(90 < mM ∨ 80 < mS ∨ 0 < ReportGenerator.totalOomOf ke) ∧
        (75 < mM ∨ 50 < mS ∨ 0 < ReportGenerator.totalCriticalOf ke)) ∧
      (s.statusOf = "NORMAL" ↔
        ¬(90 < mM ∨ 80 < mS ∨ 0 < ReportGenerator.totalOomOf ke) ∧
        ¬(75 < mM ∨ 50 < mS ∨ 0 < ReportGenerator.totalCriticalOf ke)) := by
  have hC : pyMax ((d :: tl).map (·.cpu.total_percent)) =
      some ((tl.map (·.cpu.total_percent)).foldl max d.cpu.total_percent) :=
    rfl
  simp only [ReportGenerator.generate_executive_summary, List.isEmpty_cons,
    Bool.false_eq_true, if_false, hM, hS, hC, Option.some_bind]
  refine ⟨_, rfl, ?_⟩
  simp only [ReportGenerator.ExecSummary.statusOf]
  split_ifs with h1 h2
  · simp only [Bool.or_eq_true, decide_eq_true_eq] at h1
    exact ⟨iff_of_true rfl (by tauto), iff_of_false (by decide) (by tauto),
      iff_of_false (by decide) (by tauto)⟩
  · simp only [Bool.or_eq_true, decide_eq_true_eq] at h1 h2
    exact ⟨iff_of_false (by decide) (by tauto), iff_of_true rfl (by tauto),
      iff_of_false (by decide) (by tauto)⟩
  · simp only [Bool.or_eq_true, decide_eq_true_eq] at h1 h2
    exact ⟨iff_of_false (by decide) (by tauto),
      iff_of_false (by decide) (by tauto), iff_of_true rfl (by tauto)⟩

/-- Claim C3, instantiated: a single snapshot at memory percent 95 with
quiet swap and no kernel events classifies as CRITICAL. -/
theorem C3_witness :
    ∃ s : ReportGenerator.ExecSummary,
      ReportGenerator.generate_executive_summary [snap95] [] = some s ∧
      s.statusOf = "CRITICAL" := by
  obtain ⟨s, hs, h1, _, _⟩ := C3_executive_summary snap95 [] [] 95 10 rfl rfl
  exact ⟨s, hs, h1.mpr (Or.inl (by norm_num))⟩
